import Mathlib

/-
Shallow embedding of the GRT circulation endpoint reconciliation core.

Modelling conventions:
- wei-scale integer-valued decimal strings are modelled as Int;
- the decimal.js engine is modelled as exact rational arithmetic over Rat
  (all constants appearing in the source, 0.001, 0.99, 10^18, are exact
  decimals, so every source computation is a Rat computation);
- JS number values (toNumber results) are modelled exactly as Rat;
- validation message strings are modelled by an inductive type carrying the
  interpolated values, preserving identity and emission order of messages;
- wall-clock readings (Date.now) that only feed duration metadata are
  modelled as 0; the circuit-breaker clock is an explicit Nat parameter.
-/

/- ===== Data model (src/src/utils/l1/types.ts, l2/types.ts, reconciliation/types.ts) ===== -/

structure L1GlobalState where
  totalSupply : Int
  lockedSupply : Int
  lockedSupplyGenesis : Int
  liquidSupply : Int
  circulatingSupply : Int
deriving DecidableEq, Repr

structure GraphNetwork where
  totalSupply : Int
  totalGRTDepositedConfirmed : Int
  totalGRTWithdrawn : Int
deriving DecidableEq, Repr

structure L2SupplyData where
  totalSupply : Int
  totalGRTDepositedConfirmed : Int
  totalGRTWithdrawn : Int
  netL2Supply : Int
deriving DecidableEq, Repr

structure ReconciledGlobalState where
  totalSupply : Rat
  lockedSupply : Rat
  lockedSupplyGenesis : Rat
  liquidSupply : Rat
  circulatingSupply : Rat
  l1Breakdown : L1GlobalState
  l2Breakdown : L2SupplyData
  reconciliationTimestamp : Nat
deriving DecidableEq, Repr

structure ReconciliationConfig where
  l2SubgraphUrl : String
  enableValidation : Bool
  toleranceThreshold : Rat
deriving DecidableEq, Repr

/- ===== L2 adapter transform (src/src/utils/l2/supply-data.graphql.ts, transformL2Response) ===== -/

/-- netL2Supply = totalSupply - totalGRTDepositedConfirmed + totalGRTWithdrawn,
computed at construction from the raw GraphNetwork fields. -/
def transformL2Response (graphNetwork : GraphNetwork) : L2SupplyData :=
  { totalSupply := graphNetwork.totalSupply
    totalGRTDepositedConfirmed := graphNetwork.totalGRTDepositedConfirmed
    totalGRTWithdrawn := graphNetwork.totalGRTWithdrawn
    netL2Supply :=
      graphNetwork.totalSupply - graphNetwork.totalGRTDepositedConfirmed +
        graphNetwork.totalGRTWithdrawn }

/- ===== Reconciliation algorithm (supply-reconciler.ts, reconcileSupplyData) ===== -/

def DIVISION_NUMBER : Rat := 1000000000000000000

/-- Wei to decimal conversion: dividedBy 10^18. -/
def weiToGRT (v : Int) : Rat := (v : Rat) / DIVISION_NUMBER

def reconcileSupplyData (l1Data : L1GlobalState) (l2Data : L2SupplyData) :
    ReconciledGlobalState :=
  let l1TotalSupply := weiToGRT l1Data.totalSupply
  let l1LockedSupply := weiToGRT l1Data.lockedSupply
  let l1LockedSupplyGenesis := weiToGRT l1Data.lockedSupplyGenesis
  let l1CirculatingSupply := weiToGRT l1Data.circulatingSupply
  let l2NetSupply := weiToGRT l2Data.netL2Supply
  let reconciledTotalSupply := l1TotalSupply + l2NetSupply
  let reconciledCirculatingSupply := l1CirculatingSupply + l2NetSupply
  let reconciledLockedSupply := l1LockedSupply
  let reconciledLiquidSupply := reconciledTotalSupply - reconciledLockedSupply
  { totalSupply := reconciledTotalSupply
    lockedSupply := reconciledLockedSupply
    lockedSupplyGenesis := l1LockedSupplyGenesis
    liquidSupply := reconciledLiquidSupply
    circulatingSupply := reconciledCirculatingSupply
    l1Breakdown := l1Data
    l2Breakdown := l2Data
    reconciliationTimestamp := 0 }

/- ===== Validation engine (src/src/utils/reconciliation/validation.ts) ===== -/

/-- Validation messages; constructors carry the interpolated values of the
corresponding source message strings. -/
inductive VMsg where
  | l1FieldEmptyOrZero (field : String)
  | l1FieldNegative (field : String) (value : Int)
  | l1SupplyRelationship (total calculated : Int)
  | l1CircExceedsTotal (circulating total : Int)
  | l2Incomplete
  | l2FieldNegative (field : String) (value : Int)
  | l2DepositedExceedsTotal (deposited total : Int)
  | l2NetMismatch (actual expected : Int)
  | l2NetNegative (net : Int)
  | reconTotalNotPositive
  | reconCircNegative
  | reconCircExceedsTotal
  | reconLowVsL1
  | reconSupplyRelationship (total sum : Rat)
deriving DecidableEq, Repr

structure ValidationResult where
  warnings : List VMsg
  errors : List VMsg
deriving DecidableEq, Repr

/-- isValid := errors.length === 0, as computed at each validator return. -/
def ValidationResult.isValid (r : ValidationResult) : Bool := r.errors.isEmpty

/-- One iteration of the L1 field loop; an integer-valued string is truthy in
JS, so the empty-or-zero branch fires exactly on the value 0.
Returns (warnings, errors). -/
def checkL1Field (field : String) (value : Int) : List VMsg × List VMsg :=
  if value = 0 then ([VMsg.l1FieldEmptyOrZero field], [])
  else if value < 0 then ([], [VMsg.l1FieldNegative field value])
  else ([], [])

def validateL1Data (l1Data : L1GlobalState) : ValidationResult :=
  let fieldChecks :=
    [checkL1Field "totalSupply" l1Data.totalSupply,
     checkL1Field "lockedSupply" l1Data.lockedSupply,
     checkL1Field "lockedSupplyGenesis" l1Data.lockedSupplyGenesis,
     checkL1Field "liquidSupply" l1Data.liquidSupply,
     checkL1Field "circulatingSupply" l1Data.circulatingSupply]
  let fieldWarnings := (fieldChecks.map Prod.fst).flatten
  let fieldErrors := (fieldChecks.map Prod.snd).flatten
  let calculatedTotal := l1Data.lockedSupply + l1Data.liquidSupply
  let totalDifference : Rat := |((l1Data.totalSupply - calculatedTotal : Int) : Rat)|
  let tolerance : Rat := (l1Data.totalSupply : Rat) * (1 / 1000)
  let relationshipWarnings :=
    if totalDifference > tolerance then
      [VMsg.l1SupplyRelationship l1Data.totalSupply calculatedTotal]
    else []
  let circErrors :=
    if l1Data.circulatingSupply > l1Data.totalSupply then
      [VMsg.l1CircExceedsTotal l1Data.circulatingSupply l1Data.totalSupply]
    else []
  { warnings := fieldWarnings ++ relationshipWarnings
    errors := fieldErrors ++ circErrors }

/-- One iteration of the L2 field loop; integer-valued strings are always
truthy, so the negativity test always runs. -/
def checkL2Field (field : String) (value : Int) : List VMsg :=
  if value < 0 then [VMsg.l2FieldNegative field value] else []

def validateL2Data (l2Data : L2SupplyData) : ValidationResult :=
  -- The incomplete-data branch tests JS truthiness of the strings; integer
  -- strings are non-empty hence truthy, so it never fires in this model.
  let fieldErrors :=
    checkL2Field "totalSupply" l2Data.totalSupply ++
    checkL2Field "totalGRTDepositedConfirmed" l2Data.totalGRTDepositedConfirmed ++
    checkL2Field "netL2Supply" l2Data.netL2Supply
  let totalSupply := l2Data.totalSupply
  let deposited := l2Data.totalGRTDepositedConfirmed
  let depositedErrors :=
    if deposited > totalSupply then
      [VMsg.l2DepositedExceedsTotal deposited totalSupply]
    else []
  -- Recomputed expected net supply: totalSupply - deposited (as in the source).
  let expectedNetSupply := totalSupply - deposited
  let actualNetSupply := l2Data.netL2Supply
  let mismatchWarnings :=
    if expectedNetSupply ≠ actualNetSupply then
      [VMsg.l2NetMismatch actualNetSupply expectedNetSupply]
    else []
  let netSupply := totalSupply - deposited
  let negativeNetWarnings :=
    if netSupply < 0 then [VMsg.l2NetNegative netSupply] else []
  { warnings := mismatchWarnings ++ negativeNetWarnings
    errors := fieldErrors ++ depositedErrors }

def validateReconciledData (reconciledData : ReconciledGlobalState)
    (l1Data : L1GlobalState) (_l2Data : L2SupplyData) : ValidationResult :=
  let totalErrors :=
    if reconciledData.totalSupply ≤ 0 then [VMsg.reconTotalNotPositive] else []
  let circNegErrors :=
    if reconciledData.circulatingSupply < 0 then [VMsg.reconCircNegative] else []
  let circTotalErrors :=
    if reconciledData.circulatingSupply > reconciledData.totalSupply then
      [VMsg.reconCircExceedsTotal]
    else []
  let l1TotalSupply := weiToGRT l1Data.totalSupply
  let lowWarnings :=
    if reconciledData.totalSupply < l1TotalSupply * (99 / 100) then
      [VMsg.reconLowVsL1]
    else []
  let supplySum := reconciledData.lockedSupply + reconciledData.liquidSupply
  let totalDifference := |reconciledData.totalSupply - supplySum|
  let tolerance := reconciledData.totalSupply * (1 / 1000)
  let relationshipWarnings :=
    if totalDifference > tolerance then
      [VMsg.reconSupplyRelationship reconciledData.totalSupply supplySum]
    else []
  { warnings := lowWarnings ++ relationshipWarnings
    errors := totalErrors ++ circNegErrors ++ circTotalErrors }

/- ===== Orchestrator (supply-reconciler.ts, SupplyReconciler) ===== -/

/-- A fulfilled fetch: the adapter data plus the duration reported by the
retry handler. -/
structure FetchOk (A : Type) where
  data : A
  durationMs : Nat
deriving DecidableEq, Repr

/-- Orchestrator error messages; constructors record provenance and the
embedded payload of the corresponding pushed string. -/
inductive OMsg where
  | l1FetchFailed (reason : String)
  | l2FetchFailed (reason : String)
  | l1Validation (m : VMsg)
  | l2Validation (m : VMsg)
  | reconciliationValidation (m : VMsg)
  | rawValidation (m : VMsg)
  | timestampError (reason : String)
deriving DecidableEq, Repr

structure ReconciliationResult where
  success : Bool
  reconciledSupply : Option ReconciledGlobalState
  errors : List OMsg
  l1FetchDurationMs : Nat
  l2FetchDurationMs : Nat
  totalDurationMs : Nat
deriving DecidableEq, Repr

def mkFailureResult (errors : List OMsg) (l1Dur l2Dur : Nat) : ReconciliationResult :=
  { success := false
    reconciledSupply := none
    errors := errors
    l1FetchDurationMs := l1Dur
    l2FetchDurationMs := l2Dur
    totalDurationMs := 0 }

def mkSuccessResult (reconciledSupply : ReconciledGlobalState) (l1Dur l2Dur : Nat) :
    ReconciliationResult :=
  { success := true
    reconciledSupply := some reconciledSupply
    errors := []
    l1FetchDurationMs := l1Dur
    l2FetchDurationMs := l2Dur
    totalDurationMs := 0 }

/-- Body of getReconciledLatestSupply after both fetches settled fulfilled. -/
def processFetchedLatest (config : ReconciliationConfig)
    (l1Data : L1GlobalState) (l2Data : L2SupplyData) (l1Dur l2Dur : Nat) :
    ReconciliationResult :=
  if config.enableValidation then
    let l1Validation := validateL1Data l1Data
    let l2Validation := validateL2Data l2Data
    let errors :=
      (if !l1Validation.isValid then l1Validation.errors.map OMsg.l1Validation else []) ++
      (if !l2Validation.isValid then l2Validation.errors.map OMsg.l2Validation else [])
    if !errors.isEmpty then mkFailureResult errors l1Dur l2Dur
    else
      let reconciledSupply := reconcileSupplyData l1Data l2Data
      let reconciledValidation := validateReconciledData reconciledSupply l1Data l2Data
      if !reconciledValidation.isValid then
        mkFailureResult (reconciledValidation.errors.map OMsg.reconciliationValidation)
          l1Dur l2Dur
      else mkSuccessResult reconciledSupply l1Dur l2Dur
  else
    mkSuccessResult (reconcileSupplyData l1Data l2Data) l1Dur l2Dur

/-- getReconciledLatestSupply with the settled outcomes of the two parallel
fetches passed explicitly (the shallow embedding of Promise.allSettled). -/
def getReconciledLatestSupply (config : ReconciliationConfig)
    (l1Result : Except String (FetchOk L1GlobalState))
    (l2Result : Except String (FetchOk L2SupplyData)) : ReconciliationResult :=
  let l1FetchDurationMs := match l1Result with
    | Except.ok v => v.durationMs
    | Except.error _ => 0
  let l2FetchDurationMs := match l2Result with
    | Except.ok v => v.durationMs
    | Except.error _ => 0
  match l1Result, l2Result with
  | Except.error r1, Except.error r2 =>
      mkFailureResult [OMsg.l1FetchFailed r1, OMsg.l2FetchFailed r2]
        l1FetchDurationMs l2FetchDurationMs
  | Except.error r1, Except.ok _ =>
      mkFailureResult [OMsg.l1FetchFailed r1] l1FetchDurationMs l2FetchDurationMs
  | Except.ok _, Except.error r2 =>
      mkFailureResult [OMsg.l2FetchFailed r2] l1FetchDurationMs l2FetchDurationMs
  | Except.ok l1v, Except.ok l2v =>
      processFetchedLatest config l1v.data l2v.data l1FetchDurationMs l2FetchDurationMs

/-- Body of getReconciledSupplyByTimestamp after both fetches settled
fulfilled. Raw validation gates as in the latest path, with unprefixed
error concatenation; the reconciled result is returned without the
reconciled-data validation step. -/
def processFetchedByTimestamp (config : ReconciliationConfig)
    (l1Data : L1GlobalState) (l2Data : L2SupplyData) (l1Dur l2Dur : Nat) :
    ReconciliationResult :=
  if config.enableValidation then
    let l1Validation := validateL1Data l1Data
    let l2Validation := validateL2Data l2Data
    if !l1Validation.isValid || !l2Validation.isValid then
      mkFailureResult ((l1Validation.errors ++ l2Validation.errors).map OMsg.rawValidation)
        l1Dur l2Dur
    else
      mkSuccessResult (reconcileSupplyData l1Data l2Data) l1Dur l2Dur
  else
    mkSuccessResult (reconcileSupplyData l1Data l2Data) l1Dur l2Dur

/-- getReconciledSupplyByTimestamp: blockResolution is the outcome of the
timestamp-to-block resolution (an exception there is caught by the
enclosing try and becomes a failure result); the fetch outcomes are the
settled results for the resolved block. -/
def getReconciledSupplyByTimestamp (config : ReconciliationConfig)
    (blockResolution : Except String Nat)
    (l1Result : Except String (FetchOk L1GlobalState))
    (l2Result : Except String (FetchOk L2SupplyData)) : ReconciliationResult :=
  match blockResolution with
  | Except.error e => mkFailureResult [OMsg.timestampError e] 0 0
  | Except.ok _ =>
    let l1FetchDurationMs := match l1Result with
      | Except.ok v => v.durationMs
      | Except.error _ => 0
    let l2FetchDurationMs := match l2Result with
      | Except.ok v => v.durationMs
      | Except.error _ => 0
    match l1Result, l2Result with
    | Except.error r1, Except.error r2 =>
        mkFailureResult [OMsg.l1FetchFailed r1, OMsg.l2FetchFailed r2]
          l1FetchDurationMs l2FetchDurationMs
    | Except.error r1, Except.ok _ =>
        mkFailureResult [OMsg.l1FetchFailed r1] l1FetchDurationMs l2FetchDurationMs
    | Except.ok _, Except.error r2 =>
        mkFailureResult [OMsg.l2FetchFailed r2] l1FetchDurationMs l2FetchDurationMs
    | Except.ok l1v, Except.ok l2v =>
        processFetchedByTimestamp config l1v.data l2v.data
          l1FetchDurationMs l2FetchDurationMs

/- ===== Retry executor with circuit breaker (retry-handler.ts) ===== -/

structure RetryConfig where
  maxAttempts : Nat
  baseDelayMs : Nat
  maxDelayMs : Nat
  backoffMultiplier : Nat
deriving DecidableEq, Repr

def DEFAULT_RETRY_CONFIG : RetryConfig :=
  { maxAttempts := 3, baseDelayMs := 1000, maxDelayMs := 8000, backoffMultiplier := 2 }

structure BreakerEntry where
  count : Nat
  lastFailure : Nat
deriving DecidableEq, Repr

/-- The per-handler circuitBreakerFailures map, keyed by operation name. -/
def CircuitState : Type := String → Option BreakerEntry

def CIRCUIT_BREAKER_THRESHOLD : Nat := 5

def CIRCUIT_BREAKER_RESET_TIME : Nat := 300000

def resetCircuitBreaker (state : CircuitState) (operationName : String) : CircuitState :=
  fun n => if n = operationName then none else state n

/-- Returns the open flag together with the possibly-updated state (the
check deletes an entry whose cool-down has elapsed). -/
def isCircuitBreakerOpen (state : CircuitState) (now : Nat) (operationName : String) :
    Bool × CircuitState :=
  match state operationName with
  | none => (false, state)
  | some failures =>
    let timeSinceLastFailure := now - failures.lastFailure
    if timeSinceLastFailure > CIRCUIT_BREAKER_RESET_TIME then
      (false, resetCircuitBreaker state operationName)
    else
      (decide (failures.count ≥ CIRCUIT_BREAKER_THRESHOLD), state)

def recordFailure (state : CircuitState) (now : Nat) (operationName : String) :
    CircuitState :=
  let failures := (state operationName).getD { count := 0, lastFailure := 0 }
  fun n =>
    if n = operationName then
      some { count := failures.count + 1, lastFailure := now }
    else state n

def backoffDelay (config : RetryConfig) (attempt : Nat) : Nat :=
  min (config.baseDelayMs * config.backoffMultiplier ^ (attempt - 1)) config.maxDelayMs

structure RetryResult (A : Type) where
  success : Bool
  data : Option A
  error : Option String
  attemptsMade : Nat
  -- the sequence of backoff sleeps performed, in order (models the sleep calls)
  delays : List Nat
deriving DecidableEq, Repr

structure AttemptsOutcome (A : Type) where
  result : Option A
  successAttempt : Nat
  delays : List Nat
  lastError : Option String
deriving DecidableEq, Repr

/-- The attempt loop of executeWithRetry: invoked with attempt = 1 and
remaining = maxAttempts; op n is the outcome of the n-th invocation of
the wrapped operation. -/
def runAttempts {A : Type} (config : RetryConfig) (op : Nat → Except String A) :
    Nat → Nat → List Nat → Option String → AttemptsOutcome A
  | _, 0, delays, lastError =>
      { result := none, successAttempt := 0, delays := delays, lastError := lastError }
  | attempt, r + 1, delays, lastError =>
      match op attempt with
      | Except.ok v =>
          { result := some v, successAttempt := attempt, delays := delays,
            lastError := lastError }
      | Except.error e =>
          -- if attempt === maxAttempts, break without sleeping
          if r = 0 then
            { result := none, successAttempt := 0, delays := delays, lastError := some e }
          else
            runAttempts config op (attempt + 1) r
              (delays ++ [backoffDelay config attempt]) (some e)

/-- executeWithRetry: the handler state and the clock are explicit; returns
the result together with the new circuit-breaker state. -/
def executeWithRetry {A : Type} (config : RetryConfig) (state : CircuitState)
    (now : Nat) (op : Nat → Except String A) (operationName : String) :
    RetryResult A × CircuitState :=
  let check := isCircuitBreakerOpen state now operationName
  if check.fst then
    ({ success := false, data := none,
       error := some ("Circuit breaker open for " ++ operationName ++
         ". Too many recent failures."),
       attemptsMade := 0, delays := [] }, check.snd)
  else
    let outcome := runAttempts config op 1 config.maxAttempts [] none
    match outcome.result with
    | some v =>
        ({ success := true, data := some v, error := none,
           attemptsMade := outcome.successAttempt, delays := outcome.delays },
         resetCircuitBreaker check.snd operationName)
    | none =>
        ({ success := false, data := none,
           error := some (outcome.lastError.getD "Unknown error"),
           attemptsMade := config.maxAttempts, delays := outcome.delays },
         recordFailure check.snd now operationName)

/- ===== Concrete inputs used by counterexamples and failing-input theorems ===== -/

def c8Network : GraphNetwork :=
  { totalSupply := 100, totalGRTDepositedConfirmed := 30, totalGRTWithdrawn := 10 }

def c9Network : GraphNetwork :=
  { totalSupply := 100, totalGRTDepositedConfirmed := 150, totalGRTWithdrawn := 0 }

def c3Network : GraphNetwork :=
  { totalSupply := 800, totalGRTDepositedConfirmed := 1000, totalGRTWithdrawn := 50 }

def c9bNetwork : GraphNetwork :=
  { totalSupply := 200, totalGRTDepositedConfirmed := 350, totalGRTWithdrawn := 100 }

def c2L1 : L1GlobalState :=
  { totalSupply := 1, lockedSupply := 0, lockedSupplyGenesis := 0,
    liquidSupply := 1, circulatingSupply := 2 }

def zeroL1 : L1GlobalState :=
  { totalSupply := 0, lockedSupply := 0, lockedSupplyGenesis := 0,
    liquidSupply := 0, circulatingSupply := 0 }

def zeroL2 : L2SupplyData :=
  { totalSupply := 0, totalGRTDepositedConfirmed := 0, totalGRTWithdrawn := 0,
    netL2Supply := 0 }

def noValidationConfig : ReconciliationConfig :=
  { l2SubgraphUrl := "url", enableValidation := false, toleranceThreshold := 0 }

def validationConfig : ReconciliationConfig :=
  { l2SubgraphUrl := "url", enableValidation := true, toleranceThreshold := 0 }

def goodL1 : L1GlobalState :=
  { totalSupply := 1000, lockedSupply := 200, lockedSupplyGenesis := 190,
    liquidSupply := 800, circulatingSupply := 810 }

def goodL2 : L2SupplyData :=
  { totalSupply := 500, totalGRTDepositedConfirmed := 300, totalGRTWithdrawn := 0,
    netL2Supply := 200 }


def emptyBreakerState : CircuitState := fun _ => none

/-- A breaker map holding a tripped entry (threshold reached at time 1000)
for the operation name "L1_LATEST_GLOBAL_STATE" only. -/
def trippedState : CircuitState :=
  fun n => if n = "L1_LATEST_GLOBAL_STATE" then
    some { count := 5, lastFailure := 1000 } else none

/-- An operation that succeeds on every attempt. -/
def okOp : Nat → Except String Nat := fun _ => Except.ok 42

/-- An operation that fails on every attempt. -/
def failOp : Nat → Except String Nat := fun _ => Except.error "network error"

/- ===== Helper lemmas ===== -/

lemma isValid_false_of_errors_ne_nil (r : ValidationResult) (h : r.errors ≠ []) :
    r.isValid = false := by
  unfold ValidationResult.isValid
  cases herr : r.errors with
  | nil => exact absurd herr h
  | cons a l => simp

lemma errors_ne_nil_of_isValid_false (r : ValidationResult) (h : r.isValid = false) :
    r.errors ≠ [] := by
  unfold ValidationResult.isValid at h
  cases herr : r.errors with
  | nil => rw [herr] at h; simp at h
  | cons a l => simp

lemma validateL1Data_circ_le_of_isValid (l1Data : L1GlobalState)
    (h : (validateL1Data l1Data).isValid = true) :
    l1Data.circulatingSupply ≤ l1Data.totalSupply := by
  by_contra hgt
  push_neg at hgt
  have hne : (validateL1Data l1Data).errors ≠ [] := by
    simp only [validateL1Data]
    intro heq
    rcases List.append_eq_nil.mp heq with ⟨_, h2⟩
    rw [if_pos hgt] at h2
    exact List.cons_ne_nil _ _ h2
  have := isValid_false_of_errors_ne_nil _ hne
  rw [this] at h
  exact Bool.false_ne_true h

lemma reconcile_total_eq_liquid_add_locked (l1Data : L1GlobalState) (l2Data : L2SupplyData) :
    (reconcileSupplyData l1Data l2Data).totalSupply =
      (reconcileSupplyData l1Data l2Data).liquidSupply +
        (reconcileSupplyData l1Data l2Data).lockedSupply := by
  simp only [reconcileSupplyData]
  ring

lemma weiToGRT_mono {a b : Int} (h : a ≤ b) : weiToGRT a ≤ weiToGRT b := by
  unfold weiToGRT
  have hD : (0 : Rat) < DIVISION_NUMBER := by norm_num [DIVISION_NUMBER]
  exact (div_le_div_iff_of_pos_right hD).mpr (by exact_mod_cast h)

lemma reconcile_circ_le_total (l1Data : L1GlobalState) (l2Data : L2SupplyData)
    (h : l1Data.circulatingSupply ≤ l1Data.totalSupply) :
    (reconcileSupplyData l1Data l2Data).circulatingSupply ≤
      (reconcileSupplyData l1Data l2Data).totalSupply := by
  show weiToGRT l1Data.circulatingSupply + weiToGRT l2Data.netL2Supply ≤
    weiToGRT l1Data.totalSupply + weiToGRT l2Data.netL2Supply
  exact add_le_add_right (weiToGRT_mono h) _

/- ===== C1 ===== -/

/-- C1: for every pair of snapshots, the Reconciliation Algorithm returns
totalSupply = L1.totalSupply + L2.netSupply, circulatingSupply =
L1.circulatingSupply + L2.netSupply, lockedSupply = L1.lockedSupply,
liquidSupply = totalSupply - lockedSupply and lockedSupplyGenesis =
L1.lockedSupplyGenesis, every input field scaled to human units by
dividing the wei value by 10^18. -/
theorem reconciliation_algorithm_formulas (l1Data : L1GlobalState)
    (l2Data : L2SupplyData) :
    (reconcileSupplyData l1Data l2Data).totalSupply =
        weiToGRT l1Data.totalSupply + weiToGRT l2Data.netL2Supply ∧
    (reconcileSupplyData l1Data l2Data).circulatingSupply =
        weiToGRT l1Data.circulatingSupply + weiToGRT l2Data.netL2Supply ∧
    (reconcileSupplyData l1Data l2Data).lockedSupply = weiToGRT l1Data.lockedSupply ∧
    (reconcileSupplyData l1Data l2Data).liquidSupply =
        (reconcileSupplyData l1Data l2Data).totalSupply -
          (reconcileSupplyData l1Data l2Data).lockedSupply ∧
    (reconcileSupplyData l1Data l2Data).lockedSupplyGenesis =
        weiToGRT l1Data.lockedSupplyGenesis :=
  ⟨rfl, rfl, rfl, rfl, rfl⟩

/- ===== C3 ===== -/

/-- C3: for all non-negative raw fields, the snapshot produced by the L2
adapter satisfies netSupply = totalSupply - (totalDepositedConfirmed -
totalWithdrawn), exactly, including negative results. -/
theorem l2_netting_invariant (graphNetwork : GraphNetwork)
    (_h1 : 0 ≤ graphNetwork.totalSupply)
    (_h2 : 0 ≤ graphNetwork.totalGRTDepositedConfirmed)
    (_h3 : 0 ≤ graphNetwork.totalGRTWithdrawn) :
    (transformL2Response graphNetwork).netL2Supply =
      (transformL2Response graphNetwork).totalSupply -
        ((transformL2Response graphNetwork).totalGRTDepositedConfirmed -
          (transformL2Response graphNetwork).totalGRTWithdrawn) := by
  simp only [transformL2Response]
  ring

/-- Witness for C3 at a skewed input where the net supply is negative. -/
theorem l2_netting_invariant_witness :
    (transformL2Response c3Network).netL2Supply =
      (transformL2Response c3Network).totalSupply -
        ((transformL2Response c3Network).totalGRTDepositedConfirmed -
          (transformL2Response c3Network).totalGRTWithdrawn) :=
  l2_netting_invariant c3Network (by decide) (by decide) (by decide)

/- ===== C8 ===== -/

/-- C8: at the failing input (totalSupply = 100, deposited = 30,
withdrawn = 10 wei), the L2 adapter stores netSupply = 80 per its
documented formula, yet validateL2Data recomputes the expected net supply
as totalSupply - deposited = 70 and emits the net-supply-mismatch warning
even though the derived field was computed correctly at construction. -/
theorem l2_mismatch_warning_on_correct_snapshot :
    (transformL2Response c8Network).netL2Supply =
      (transformL2Response c8Network).totalSupply -
        ((transformL2Response c8Network).totalGRTDepositedConfirmed -
          (transformL2Response c8Network).totalGRTWithdrawn) ∧
    (validateL2Data (transformL2Response c8Network)).warnings =
      [VMsg.l2NetMismatch 80 70] := by decide

/- ===== C9 ===== -/

/-- C9 counterexample: a snapshot whose net supply is negative for which
validateL2Data reports the stored negative netSupply as a hard error in
its field-negativity loop, making the validation result invalid — the
claim that negativity is only ever a warning is false. -/
theorem negative_net_error_counterexample :
    (transformL2Response c9Network).netL2Supply < 0 ∧
    VMsg.l2FieldNegative "netL2Supply" (-50) ∈
      (validateL2Data (transformL2Response c9Network)).errors ∧
    (validateL2Data (transformL2Response c9Network)).isValid = false := by decide

/-- C9 amended: for every adapter-produced snapshot with non-negative
withdrawals whose net supply is negative, the dedicated negative-net
check does add only a warning, but the field-negativity loop reports the
stored negative netSupply as an error and deposits then exceed the total
supply (another error), so the validation result is invalid. -/
theorem negative_net_supply_is_invalid (graphNetwork : GraphNetwork)
    (hw : 0 ≤ graphNetwork.totalGRTWithdrawn)
    (hneg : (transformL2Response graphNetwork).netL2Supply < 0) :
    VMsg.l2NetNegative
        ((transformL2Response graphNetwork).totalSupply -
          (transformL2Response graphNetwork).totalGRTDepositedConfirmed) ∈
      (validateL2Data (transformL2Response graphNetwork)).warnings ∧
    (validateL2Data (transformL2Response graphNetwork)).isValid = false := by
  have hlt : graphNetwork.totalSupply - graphNetwork.totalGRTDepositedConfirmed < 0 := by
    simp only [transformL2Response] at hneg
    omega
  constructor
  · simp [validateL2Data, transformL2Response, hlt]
  · apply isValid_false_of_errors_ne_nil
    have hgt : graphNetwork.totalGRTDepositedConfirmed > graphNetwork.totalSupply := by
      omega
    simp only [validateL2Data, transformL2Response, if_pos hgt]
    intro heq
    rcases List.append_eq_nil.mp heq with ⟨_, h2⟩
    exact List.cons_ne_nil _ _ h2

/-- Witness for the amended C9 at totalSupply = 200, deposited = 350,
withdrawn = 100 (stored netSupply = -50, recomputed net = -150). -/
theorem negative_net_supply_is_invalid_witness :
    VMsg.l2NetNegative
        ((transformL2Response c9bNetwork).totalSupply -
          (transformL2Response c9bNetwork).totalGRTDepositedConfirmed) ∈
      (validateL2Data (transformL2Response c9bNetwork)).warnings ∧
    (validateL2Data (transformL2Response c9bNetwork)).isValid = false :=
  negative_net_supply_is_invalid c9bNetwork (by decide) (by decide)

/- ===== C2 counterexample ===== -/

/-- C2 counterexample: with validation disabled, the latest-data entry
point returns a successful reconciliation whose circulatingSupply exceeds
its totalSupply (L1 circulating = 2 wei, L1 total = 1 wei), refuting the
claim for every successful reconciliation. -/
theorem consistency_invariant_counterexample :
    (getReconciledLatestSupply noValidationConfig
        (Except.ok { data := c2L1, durationMs := 0 })
        (Except.ok { data := zeroL2, durationMs := 0 })).success = true ∧
    (getReconciledLatestSupply noValidationConfig
        (Except.ok { data := c2L1, durationMs := 0 })
        (Except.ok { data := zeroL2, durationMs := 0 })).reconciledSupply =
      some (reconcileSupplyData c2L1 zeroL2) ∧
    (reconcileSupplyData c2L1 zeroL2).totalSupply <
      (reconcileSupplyData c2L1 zeroL2).circulatingSupply := by
  refine ⟨?_, ?_, ?_⟩
  · simp [getReconciledLatestSupply, processFetchedLatest, noValidationConfig,
      mkSuccessResult]
  · simp [getReconciledLatestSupply, processFetchedLatest, noValidationConfig,
      mkSuccessResult]
  · simp [reconcileSupplyData, weiToGRT, c2L1, zeroL2, DIVISION_NUMBER]
    norm_num

lemma map_ne_nil_of_ne_nil {A B : Type} (f : A → B) (l : List A) (h : l ≠ []) :
    l.map f ≠ [] := by
  cases l with
  | nil => exact absurd rfl h
  | cons a t => exact List.cons_ne_nil _ _

lemma processFetchedLatest_success_shape (config : ReconciliationConfig)
    (l1Data : L1GlobalState) (l2Data : L2SupplyData) (d1 d2 : Nat)
    (h : (processFetchedLatest config l1Data l2Data d1 d2).success = true) :
    (processFetchedLatest config l1Data l2Data d1 d2).reconciledSupply =
      some (reconcileSupplyData l1Data l2Data) ∧
    (config.enableValidation = true → (validateL1Data l1Data).isValid = true) := by
  unfold processFetchedLatest at h ⊢
  cases hval : config.enableValidation with
  | false =>
    simp only [hval, Bool.false_eq_true, if_false]
    exact ⟨rfl, fun hc => absurd hc (by simp)⟩
  | true =>
    rw [hval] at h
    simp only [hval, if_true] at h ⊢
    by_cases hv1 : (validateL1Data l1Data).isValid = true
    · by_cases hv2 : (validateL2Data l2Data).isValid = true
      · simp only [hv1, hv2, Bool.not_true, Bool.false_eq_true, if_false,
          List.append_nil, List.isEmpty_nil, Bool.not_false, Bool.true_eq_false,
          List.nil_append] at h ⊢
        split at h
        · simp [mkFailureResult] at h
        · simp_all [mkSuccessResult]
      · exfalso
        have hv2f : (validateL2Data l2Data).isValid = false := by
          simpa using hv2
        have hne := errors_ne_nil_of_isValid_false _ hv2f
        have hmapne := map_ne_nil_of_ne_nil OMsg.l2Validation _ hne
        simp only [hv2f, Bool.not_false, if_true] at h
        have hconc : ((if (!(validateL1Data l1Data).isValid) = true then
            List.map OMsg.l1Validation (validateL1Data l1Data).errors else []) ++
            List.map OMsg.l2Validation (validateL2Data l2Data).errors) ≠ [] := by
          intro heq
          rcases List.append_eq_nil.mp heq with ⟨_, h2⟩
          exact hmapne h2
        rw [if_pos (by simpa [List.isEmpty_iff] using hconc)] at h
        simp [mkFailureResult] at h
    · exfalso
      have hv1f : (validateL1Data l1Data).isValid = false := by simpa using hv1
      have hne := errors_ne_nil_of_isValid_false _ hv1f
      have hmapne := map_ne_nil_of_ne_nil OMsg.l1Validation _ hne
      simp only [hv1f, Bool.not_false, if_true] at h
      have hconc : (List.map OMsg.l1Validation (validateL1Data l1Data).errors ++
          (if (!(validateL2Data l2Data).isValid) = true then
            List.map OMsg.l2Validation (validateL2Data l2Data).errors else [])) ≠ [] := by
        intro heq
        rcases List.append_eq_nil.mp heq with ⟨h1, _⟩
        exact hmapne h1
      rw [if_pos (by simpa [List.isEmpty_iff] using hconc)] at h
      simp [mkFailureResult] at h

lemma processFetchedLatest_cases (config : ReconciliationConfig)
    (l1Data : L1GlobalState) (l2Data : L2SupplyData) (d1 d2 : Nat) :
    ((processFetchedLatest config l1Data l2Data d1 d2).success = true ∧
     (processFetchedLatest config l1Data l2Data d1 d2).errors = []) ∨
    ((processFetchedLatest config l1Data l2Data d1 d2).success = false ∧
     (processFetchedLatest config l1Data l2Data d1 d2).reconciledSupply = none ∧
     (processFetchedLatest config l1Data l2Data d1 d2).errors ≠ []) := by
  unfold processFetchedLatest
  cases hval : config.enableValidation with
  | false =>
    left
    simp [mkSuccessResult]
  | true =>
    simp only [hval, if_true]
    by_cases hv1 : (validateL1Data l1Data).isValid = true
    · by_cases hv2 : (validateL2Data l2Data).isValid = true
      · simp only [hv1, hv2, Bool.not_true, Bool.false_eq_true, if_false,
          List.append_nil, List.nil_append, List.isEmpty_nil, Bool.not_false,
          Bool.true_eq_false]
        by_cases hrv : (validateReconciledData (reconcileSupplyData l1Data l2Data)
            l1Data l2Data).isValid = true
        · rw [if_neg (by simp [hrv])]
          left
          exact ⟨rfl, rfl⟩
        · have hrvf : (validateReconciledData (reconcileSupplyData l1Data l2Data)
              l1Data l2Data).isValid = false := by simpa using hrv
          rw [if_pos (by simp [hrvf])]
          right
          refine ⟨rfl, rfl, ?_⟩
          simp only [mkFailureResult]
          exact map_ne_nil_of_ne_nil _ _ (errors_ne_nil_of_isValid_false _ hrvf)
      · have hv2f : (validateL2Data l2Data).isValid = false := by simpa using hv2
        have hne : ((if (!(validateL1Data l1Data).isValid) = true then
            List.map OMsg.l1Validation (validateL1Data l1Data).errors else []) ++
            (if (!(validateL2Data l2Data).isValid) = true then
              List.map OMsg.l2Validation (validateL2Data l2Data).errors else [])) ≠ [] := by
          intro heq
          rcases List.append_eq_nil.mp heq with ⟨_, h2⟩
          rw [if_pos (by simp [hv2f])] at h2
          exact map_ne_nil_of_ne_nil OMsg.l2Validation _
            (errors_ne_nil_of_isValid_false _ hv2f) h2
        rw [if_pos (by simpa [List.isEmpty_iff] using hne)]
        right
        refine ⟨rfl, rfl, ?_⟩
        simp only [mkFailureResult]
        exact hne
    · have hv1f : (validateL1Data l1Data).isValid = false := by simpa using hv1
      have hne : ((if (!(validateL1Data l1Data).isValid) = true then
          List.map OMsg.l1Validation (validateL1Data l1Data).errors else []) ++
          (if (!(validateL2Data l2Data).isValid) = true then
            List.map OMsg.l2Validation (validateL2Data l2Data).errors else [])) ≠ [] := by
        intro heq
        rcases List.append_eq_nil.mp heq with ⟨h1, _⟩
        rw [if_pos (by simp [hv1f])] at h1
        exact map_ne_nil_of_ne_nil OMsg.l1Validation _
          (errors_ne_nil_of_isValid_false _ hv1f) h1
      rw [if_pos (by simpa [List.isEmpty_iff] using hne)]
      right
      refine ⟨rfl, rfl, ?_⟩
      simp only [mkFailureResult]
      exact hne

lemma processFetchedByTimestamp_cases (config : ReconciliationConfig)
    (l1Data : L1GlobalState) (l2Data : L2SupplyData) (d1 d2 : Nat) :
    ((processFetchedByTimestamp config l1Data l2Data d1 d2).success = true ∧
     (processFetchedByTimestamp config l1Data l2Data d1 d2).errors = []) ∨
    ((processFetchedByTimestamp config l1Data l2Data d1 d2).success = false ∧
     (processFetchedByTimestamp config l1Data l2Data d1 d2).reconciledSupply = none ∧
     (processFetchedByTimestamp config l1Data l2Data d1 d2).errors ≠ []) := by
  unfold processFetchedByTimestamp
  cases hval : config.enableValidation with
  | false =>
    left
    simp [mkSuccessResult]
  | true =>
    simp only [hval, if_true]
    by_cases hcond : (!(validateL1Data l1Data).isValid ||
        !(validateL2Data l2Data).isValid) = true
    · rw [if_pos hcond]
      right
      refine ⟨rfl, rfl, ?_⟩
      simp only [mkFailureResult]
      rcases Bool.or_eq_true_iff.mp hcond with h1 | h2
      · have h1f : (validateL1Data l1Data).isValid = false := by simpa using h1
        have hne := errors_ne_nil_of_isValid_false _ h1f
        apply map_ne_nil_of_ne_nil
        intro heq
        rcases List.append_eq_nil.mp heq with ⟨ha, _⟩
        exact hne ha
      · have h2f : (validateL2Data l2Data).isValid = false := by simpa using h2
        have hne := errors_ne_nil_of_isValid_false _ h2f
        apply map_ne_nil_of_ne_nil
        intro heq
        rcases List.append_eq_nil.mp heq with ⟨_, hb⟩
        exact hne hb
    · rw [if_neg hcond]
      left
      exact ⟨rfl, rfl⟩

lemma processFetchedByTimestamp_success_shape (config : ReconciliationConfig)
    (l1Data : L1GlobalState) (l2Data : L2SupplyData) (d1 d2 : Nat)
    (h : (processFetchedByTimestamp config l1Data l2Data d1 d2).success = true) :
    (processFetchedByTimestamp config l1Data l2Data d1 d2).reconciledSupply =
      some (reconcileSupplyData l1Data l2Data) ∧
    (config.enableValidation = true → (validateL1Data l1Data).isValid = true) := by
  unfold processFetchedByTimestamp at h ⊢
  cases hval : config.enableValidation with
  | false =>
    simp only [hval, Bool.false_eq_true, if_false]
    exact ⟨rfl, fun hc => absurd hc (by simp)⟩
  | true =>
    rw [hval] at h
    simp only [hval, if_true] at h ⊢
    split at h
    · simp [mkFailureResult] at h
    · next hcond =>
      have hcond2 : ¬((!(validateL1Data l1Data).isValid ||
          !(validateL2Data l2Data).isValid) = true) := hcond
      rw [if_neg hcond]
      refine ⟨rfl, fun _ => ?_⟩
      by_contra hv1
      have hv1f : (validateL1Data l1Data).isValid = false := by simpa using hv1
      exact hcond2 (by simp [hv1f])

/-- C2 amended: for every successful reconciliation from either entry
point, totalSupply = liquidSupply + lockedSupply holds exactly in the
exact-arithmetic model of the decimal engine; and provided validation is
enabled, circulatingSupply is at most totalSupply. (With validation
disabled the circulating bound can fail, per the counterexample.) -/
theorem consistency_invariant_validated (config : ReconciliationConfig)
    (blockResolution : Except String Nat)
    (l1Result : Except String (FetchOk L1GlobalState))
    (l2Result : Except String (FetchOk L2SupplyData))
    (res : ReconciliationResult)
    (hres : res = getReconciledLatestSupply config l1Result l2Result ∨
            res = getReconciledSupplyByTimestamp config blockResolution l1Result l2Result)
    (hsucc : res.success = true)
    (r : ReconciledGlobalState) (hr : res.reconciledSupply = some r) :
    r.totalSupply = r.liquidSupply + r.lockedSupply ∧
    (config.enableValidation = true → r.circulatingSupply ≤ r.totalSupply) := by
  rcases hres with h | h
  · subst h
    cases l1Result with
    | error e1 =>
      cases l2Result with
      | error e2 => simp [getReconciledLatestSupply, mkFailureResult] at hsucc
      | ok v2 => simp [getReconciledLatestSupply, mkFailureResult] at hsucc
    | ok v1 =>
      cases l2Result with
      | error e2 => simp [getReconciledLatestSupply, mkFailureResult] at hsucc
      | ok v2 =>
        have heq : getReconciledLatestSupply config (Except.ok v1) (Except.ok v2) =
            processFetchedLatest config v1.data v2.data v1.durationMs v2.durationMs := rfl
        rw [heq] at hsucc hr
        obtain ⟨hsome, hval⟩ := processFetchedLatest_success_shape _ _ _ _ _ hsucc
        rw [hsome] at hr
        injection hr with hx
        subst hx
        refine ⟨reconcile_total_eq_liquid_add_locked _ _, fun hen => ?_⟩
        exact reconcile_circ_le_total _ _ (validateL1Data_circ_le_of_isValid _ (hval hen))
  · subst h
    cases blockResolution with
    | error e => simp [getReconciledSupplyByTimestamp, mkFailureResult] at hsucc
    | ok bn =>
      cases l1Result with
      | error e1 =>
        cases l2Result with
        | error e2 => simp [getReconciledSupplyByTimestamp, mkFailureResult] at hsucc
        | ok v2 => simp [getReconciledSupplyByTimestamp, mkFailureResult] at hsucc
      | ok v1 =>
        cases l2Result with
        | error e2 => simp [getReconciledSupplyByTimestamp, mkFailureResult] at hsucc
        | ok v2 =>
          have heq : getReconciledSupplyByTimestamp config (Except.ok bn)
              (Except.ok v1) (Except.ok v2) =
              processFetchedByTimestamp config v1.data v2.data v1.durationMs v2.durationMs :=
            rfl
          rw [heq] at hsucc hr
          obtain ⟨hsome, hval⟩ := processFetchedByTimestamp_success_shape _ _ _ _ _ hsucc
          rw [hsome] at hr
          injection hr with hx
          subst hx
          refine ⟨reconcile_total_eq_liquid_add_locked _ _, fun hen => ?_⟩
          exact reconcile_circ_le_total _ _ (validateL1Data_circ_le_of_isValid _ (hval hen))

/-- C4: for either orchestrator entry point, if either layer settles as
failure the result has success = false and carries no reconciled value,
regardless of the other layer; when both layers fail, both messages are
reported with the L1 message first. -/
theorem fetch_failure_all_or_nothing (config : ReconciliationConfig) (blockNumber : Nat)
    (l1Result : Except String (FetchOk L1GlobalState))
    (l2Result : Except String (FetchOk L2SupplyData))
    (hfail : (∃ r, l1Result = Except.error r) ∨ (∃ r, l2Result = Except.error r)) :
    ∀ res, (res = getReconciledLatestSupply config l1Result l2Result ∨
            res = getReconciledSupplyByTimestamp config (Except.ok blockNumber)
                    l1Result l2Result) →
      res.success = false ∧ res.reconciledSupply = none ∧
      (∀ e1 e2, l1Result = Except.error e1 → l2Result = Except.error e2 →
        res.errors = [OMsg.l1FetchFailed e1, OMsg.l2FetchFailed e2]) := by
  intro res hres
  rcases hres with h | h <;> subst h <;>
    cases l1Result with
    | error e1 =>
      cases l2Result with
      | error e2 =>
        refine ⟨rfl, rfl, ?_⟩
        intro a b ha hb
        injection ha with ha2
        injection hb with hb2
        subst ha2
        subst hb2
        rfl
      | ok v2 =>
        refine ⟨rfl, rfl, ?_⟩
        intro a b ha hb
        exact absurd hb (by simp)
    | ok v1 =>
      cases l2Result with
      | error e2 =>
        refine ⟨rfl, rfl, ?_⟩
        intro a b ha hb
        exact absurd ha (by simp)
      | ok v2 =>
        exfalso
        rcases hfail with ⟨r, hr⟩ | ⟨r, hr⟩ <;> simp at hr

/-- C10: for every call to either entry point, success = true exactly when
a reconciledSupply value is present; on success the errors list is empty
and on failure it is non-empty. -/
theorem success_iff_reconciled_value (config : ReconciliationConfig)
    (blockResolution : Except String Nat)
    (l1Result : Except String (FetchOk L1GlobalState))
    (l2Result : Except String (FetchOk L2SupplyData)) :
    ∀ res, (res = getReconciledLatestSupply config l1Result l2Result ∨
            res = getReconciledSupplyByTimestamp config blockResolution
                    l1Result l2Result) →
      (res.success = true ↔ res.reconciledSupply.isSome = true) ∧
      (res.success = true → res.errors = []) ∧
      (res.success = false → res.errors ≠ []) := by
  intro res hres
  rcases hres with h | h
  · subst h
    cases l1Result with
    | error e1 =>
      cases l2Result with
      | error e2 =>
        exact ⟨by simp [getReconciledLatestSupply, mkFailureResult],
          by simp [getReconciledLatestSupply, mkFailureResult],
          by simp [getReconciledLatestSupply, mkFailureResult]⟩
      | ok v2 =>
        exact ⟨by simp [getReconciledLatestSupply, mkFailureResult],
          by simp [getReconciledLatestSupply, mkFailureResult],
          by simp [getReconciledLatestSupply, mkFailureResult]⟩
    | ok v1 =>
      cases l2Result with
      | error e2 =>
        exact ⟨by simp [getReconciledLatestSupply, mkFailureResult],
          by simp [getReconciledLatestSupply, mkFailureResult],
          by simp [getReconciledLatestSupply, mkFailureResult]⟩
      | ok v2 =>
        have heq : getReconciledLatestSupply config (Except.ok v1) (Except.ok v2) =
            processFetchedLatest config v1.data v2.data v1.durationMs v2.durationMs := rfl
        rw [heq]
        rcases processFetchedLatest_cases config v1.data v2.data v1.durationMs
            v2.durationMs with ⟨hs, he⟩ | ⟨hs, hn, he⟩
        · obtain ⟨hsome, _⟩ := processFetchedLatest_success_shape _ _ _ _ _ hs
          refine ⟨?_, fun _ => he, fun hx => ?_⟩
          · rw [hs, hsome]
            simp
          · rw [hs] at hx
            exact absurd hx (by simp)
        · refine ⟨?_, fun hx => ?_, fun _ => he⟩
          · rw [hs, hn]
            simp
          · rw [hs] at hx
            exact absurd hx (by simp)
  · subst h
    cases blockResolution with
    | error e =>
      exact ⟨by simp [getReconciledSupplyByTimestamp, mkFailureResult],
        by simp [getReconciledSupplyByTimestamp, mkFailureResult],
        by simp [getReconciledSupplyByTimestamp, mkFailureResult]⟩
    | ok bn =>
      cases l1Result with
      | error e1 =>
        cases l2Result with
        | error e2 =>
          exact ⟨by simp [getReconciledSupplyByTimestamp, mkFailureResult],
            by simp [getReconciledSupplyByTimestamp, mkFailureResult],
            by simp [getReconciledSupplyByTimestamp, mkFailureResult]⟩
        | ok v2 =>
          exact ⟨by simp [getReconciledSupplyByTimestamp, mkFailureResult],
            by simp [getReconciledSupplyByTimestamp, mkFailureResult],
            by simp [getReconciledSupplyByTimestamp, mkFailureResult]⟩
      | ok v1 =>
        cases l2Result with
        | error e2 =>
          exact ⟨by simp [getReconciledSupplyByTimestamp, mkFailureResult],
            by simp [getReconciledSupplyByTimestamp, mkFailureResult],
            by simp [getReconciledSupplyByTimestamp, mkFailureResult]⟩
        | ok v2 =>
          have heq : getReconciledSupplyByTimestamp config (Except.ok bn)
              (Except.ok v1) (Except.ok v2) =
              processFetchedByTimestamp config v1.data v2.data v1.durationMs
                v2.durationMs := rfl
          rw [heq]
          rcases processFetchedByTimestamp_cases config v1.data v2.data v1.durationMs
              v2.durationMs with ⟨hs, he⟩ | ⟨hs, hn, he⟩
          · obtain ⟨hsome, _⟩ := processFetchedByTimestamp_success_shape _ _ _ _ _ hs
            refine ⟨?_, fun _ => he, fun hx => ?_⟩
            · rw [hs, hsome]
              simp
            · rw [hs] at hx
              exact absurd hx (by simp)
          · refine ⟨?_, fun hx => ?_, fun _ => he⟩
            · rw [hs, hn]
              simp
            · rw [hs] at hx
              exact absurd hx (by simp)

/-- Witness for the amended C2 at a concrete validated input. -/
theorem consistency_invariant_validated_witness :
    (reconcileSupplyData goodL1 goodL2).totalSupply =
      (reconcileSupplyData goodL1 goodL2).liquidSupply +
        (reconcileSupplyData goodL1 goodL2).lockedSupply ∧
    (validationConfig.enableValidation = true →
      (reconcileSupplyData goodL1 goodL2).circulatingSupply ≤
        (reconcileSupplyData goodL1 goodL2).totalSupply) := by
  have hsucc : (getReconciledLatestSupply validationConfig
      (Except.ok { data := goodL1, durationMs := 0 })
      (Except.ok { data := goodL2, durationMs := 0 })).success = true := by
    norm_num [getReconciledLatestSupply, processFetchedLatest, validationConfig,
      validateL1Data, validateL2Data, checkL1Field, checkL2Field, goodL1, goodL2,
      ValidationResult.isValid, validateReconciledData, reconcileSupplyData,
      weiToGRT, DIVISION_NUMBER, mkSuccessResult, mkFailureResult]
  have hr : (getReconciledLatestSupply validationConfig
      (Except.ok { data := goodL1, durationMs := 0 })
      (Except.ok { data := goodL2, durationMs := 0 })).reconciledSupply =
      some (reconcileSupplyData goodL1 goodL2) := by
    norm_num [getReconciledLatestSupply, processFetchedLatest, validationConfig,
      validateL1Data, validateL2Data, checkL1Field, checkL2Field, goodL1, goodL2,
      ValidationResult.isValid, validateReconciledData, reconcileSupplyData,
      weiToGRT, DIVISION_NUMBER, mkSuccessResult, mkFailureResult]
  exact consistency_invariant_validated validationConfig (Except.ok 0)
    (Except.ok { data := goodL1, durationMs := 0 })
    (Except.ok { data := goodL2, durationMs := 0 }) _ (Or.inl rfl) hsucc _ hr

/-- Witness for C4 with both layers failing. -/
theorem fetch_failure_all_or_nothing_witness :
    (getReconciledLatestSupply validationConfig (Except.error "l1 down")
        (Except.error "l2 down")).success = false ∧
    (getReconciledLatestSupply validationConfig (Except.error "l1 down")
        (Except.error "l2 down")).reconciledSupply = none ∧
    (getReconciledLatestSupply validationConfig (Except.error "l1 down")
        (Except.error "l2 down")).errors =
      [OMsg.l1FetchFailed "l1 down", OMsg.l2FetchFailed "l2 down"] := by
  have h := fetch_failure_all_or_nothing validationConfig 7
    (Except.error "l1 down") (Except.error "l2 down")
    (Or.inl ⟨"l1 down", rfl⟩)
    (getReconciledLatestSupply validationConfig (Except.error "l1 down")
      (Except.error "l2 down"))
    (Or.inl rfl)
  exact ⟨h.1, h.2.1, h.2.2 "l1 down" "l2 down" rfl rfl⟩

/-- Witness for C10 at a failing L1 fetch. -/
theorem success_iff_reconciled_value_witness :
    ((getReconciledLatestSupply validationConfig (Except.error "down")
        (Except.ok { data := zeroL2, durationMs := 0 })).success = true ↔
      (getReconciledLatestSupply validationConfig (Except.error "down")
        (Except.ok { data := zeroL2, durationMs := 0 })).reconciledSupply.isSome = true) ∧
    ((getReconciledLatestSupply validationConfig (Except.error "down")
        (Except.ok { data := zeroL2, durationMs := 0 })).success = true →
      (getReconciledLatestSupply validationConfig (Except.error "down")
        (Except.ok { data := zeroL2, durationMs := 0 })).errors = []) ∧
    ((getReconciledLatestSupply validationConfig (Except.error "down")
        (Except.ok { data := zeroL2, durationMs := 0 })).success = false →
      (getReconciledLatestSupply validationConfig (Except.error "down")
        (Except.ok { data := zeroL2, durationMs := 0 })).errors ≠ []) :=
  success_iff_reconciled_value validationConfig (Except.ok 0) (Except.error "down")
    (Except.ok { data := zeroL2, durationMs := 0 })
    (getReconciledLatestSupply validationConfig (Except.error "down")
      (Except.ok { data := zeroL2, durationMs := 0 }))
    (Or.inl rfl)

/-- C7: at the all-zero input with validation enabled, the timestamp entry
point returns success although the reconciled-result validation rejects
the reconciled value, while the latest entry point aborts with failure:
the two entry points do not apply identical validation logic. -/
theorem timestamp_skips_reconciled_validation :
    (getReconciledSupplyByTimestamp validationConfig (Except.ok 1)
        (Except.ok { data := zeroL1, durationMs := 0 })
        (Except.ok { data := zeroL2, durationMs := 0 })).success = true ∧
    (getReconciledLatestSupply validationConfig
        (Except.ok { data := zeroL1, durationMs := 0 })
        (Except.ok { data := zeroL2, durationMs := 0 })).success = false ∧
    (validateReconciledData (reconcileSupplyData zeroL1 zeroL2) zeroL1 zeroL2).isValid
      = false := by
  refine ⟨?_, ?_, ?_⟩
  · simp [getReconciledSupplyByTimestamp, processFetchedByTimestamp, validationConfig,
      validateL1Data, validateL2Data, checkL1Field, checkL2Field, zeroL1, zeroL2,
      ValidationResult.isValid, mkSuccessResult]
  · simp [getReconciledLatestSupply, processFetchedLatest, validationConfig,
      validateL1Data, validateL2Data, checkL1Field, checkL2Field, zeroL1, zeroL2,
      validateReconciledData, reconcileSupplyData, weiToGRT, DIVISION_NUMBER,
      ValidationResult.isValid, mkFailureResult, mkSuccessResult]
  · simp [validateReconciledData, reconcileSupplyData, weiToGRT, zeroL1, zeroL2,
      DIVISION_NUMBER, ValidationResult.isValid]

lemma runAttempts_ok_first {A : Type} (config : RetryConfig)
    (op : Nat → Except String A) (m : Nat) (v : A)
    (hop : op 1 = Except.ok v) (hm : 1 ≤ m) :
    runAttempts config op 1 m [] none =
      { result := some v, successAttempt := 1, delays := [], lastError := none } := by
  cases m with
  | zero => omega
  | succ r => simp [runAttempts, hop]

lemma runAttempts_all_fail {A : Type} (config : RetryConfig)
    (op : Nat → Except String A) :
    ∀ (remaining attempt : Nat) (acc : List Nat) (le : Option String),
      1 ≤ remaining →
      (∀ k, attempt ≤ k → k < attempt + remaining → ∃ e, op k = Except.error e) →
      ∃ e, op (attempt + remaining - 1) = Except.error e ∧
        runAttempts config op attempt remaining acc le =
          { result := none, successAttempt := 0,
            delays := acc ++ (List.range (remaining - 1)).map
              (fun j => backoffDelay config (attempt + j)),
            lastError := some e } := by
  intro remaining
  induction remaining with
  | zero => intro attempt acc le h1 _; omega
  | succ r ih =>
    intro attempt acc le h1 hfail
    obtain ⟨e, he⟩ := hfail attempt (le_refl _) (by omega)
    cases hr : r with
    | zero =>
      subst hr
      refine ⟨e, by simpa using he, ?_⟩
      simp [runAttempts, he]
    | succ r2 =>
      subst hr
      obtain ⟨e2, he2, hres⟩ := ih (attempt + 1) (acc ++ [backoffDelay config attempt])
        (some e) (by omega) (fun k hk1 hk2 => hfail k (by omega) (by omega))
      refine ⟨e2, ?_, ?_⟩
      · have harith : attempt + 1 + (r2 + 1) - 1 = attempt + (r2 + 1 + 1) - 1 := by omega
        rw [harith] at he2
        exact he2
      · rw [runAttempts]
        simp only [he]
        rw [if_neg (Nat.succ_ne_zero r2), hres]
        congr 1
        rw [List.append_assoc, List.singleton_append]
        congr 1
        simp only [Nat.add_sub_cancel]
        rw [List.range_succ_eq_map]
        simp only [List.map_cons, List.map_map, Nat.add_zero]
        congr 1
        apply List.map_congr_left
        intro a _
        simp only [Function.comp_apply]
        congr 1
        omega

lemma range_map_getD (n i : Nat) (f : Nat → Nat) (h : i < n) :
    ((List.range n).map f).getD i 0 = f i := by
  rw [List.getD_eq_getElem?_getD, List.getElem?_map, List.getElem?_range h]
  rfl

/-- C6: an operation failing on all attempts is attempted exactly
maxAttempts times and no more, the result carries the last error message
and the attempt count, and the sleep after attempt n (before retry n+1)
is min(baseDelayMs * backoffMultiplier^(n-1), maxDelayMs). -/
theorem retry_exhaustion (A : Type) (config : RetryConfig) (state : CircuitState)
    (now : Nat) (op : Nat → Except String A) (operationName : String)
    (hclosed : (isCircuitBreakerOpen state now operationName).fst = false)
    (hmax : 1 ≤ config.maxAttempts)
    (hfail : ∀ k, 1 ≤ k → k ≤ config.maxAttempts → ∃ e, op k = Except.error e) :
    (executeWithRetry config state now op operationName).fst.success = false ∧
    (executeWithRetry config state now op operationName).fst.attemptsMade =
      config.maxAttempts ∧
    (∀ e, op config.maxAttempts = Except.error e →
      (executeWithRetry config state now op operationName).fst.error = some e) ∧
    (executeWithRetry config state now op operationName).fst.delays.length =
      config.maxAttempts - 1 ∧
    (∀ i, i < config.maxAttempts - 1 →
      (executeWithRetry config state now op operationName).fst.delays.getD i 0 =
        min (config.baseDelayMs * config.backoffMultiplier ^ i) config.maxDelayMs) := by
  obtain ⟨e, he, hrun⟩ := runAttempts_all_fail config op config.maxAttempts 1 [] none
    hmax (fun k hk1 hk2 => hfail k hk1 (by omega))
  have he2 : op config.maxAttempts = Except.error e := by
    have : 1 + config.maxAttempts - 1 = config.maxAttempts := by omega
    rwa [this] at he
  unfold executeWithRetry
  simp only [hclosed, Bool.false_eq_true, if_false, hrun, List.nil_append]
  refine ⟨trivial, trivial, ?_, ?_, ?_⟩
  · intro e3 he3
    rw [he2] at he3
    injection he3 with hx
    subst hx
    rfl
  · simp
  · intro i hi
    rw [range_map_getD _ _ _ hi]
    unfold backoffDelay
    have hx : 1 + i - 1 = i := by omega
    rw [hx]

/-- C5: with a breaker entry at or past the threshold (5) inside the
cool-down window (5 minutes), the next call for that operation name fails
immediately with zero attempts; a call under a different name with no
entry proceeds and succeeds on its first attempt; and once the cool-down
has elapsed the breaker entry is reset and attempts are permitted again. -/
theorem circuit_breaker_behavior (A : Type) (config : RetryConfig) :
    (∀ (state : CircuitState) (now : Nat) (name : String) (entry : BreakerEntry)
        (op : Nat → Except String A),
      state name = some entry →
      CIRCUIT_BREAKER_THRESHOLD ≤ entry.count →
      now - entry.lastFailure ≤ CIRCUIT_BREAKER_RESET_TIME →
      (executeWithRetry config state now op name).fst.success = false ∧
      (executeWithRetry config state now op name).fst.attemptsMade = 0) ∧
    (∀ (state : CircuitState) (now : Nat) (name name2 : String) (entry : BreakerEntry)
        (op2 : Nat → Except String A) (v : A),
      state name = some entry →
      CIRCUIT_BREAKER_THRESHOLD ≤ entry.count →
      state name2 = none →
      op2 1 = Except.ok v →
      1 ≤ config.maxAttempts →
      (executeWithRetry config state now op2 name2).fst.success = true ∧
      (executeWithRetry config state now op2 name2).fst.attemptsMade = 1) ∧
    (∀ (state : CircuitState) (now : Nat) (name : String) (entry : BreakerEntry)
        (op : Nat → Except String A) (v : A),
      state name = some entry →
      CIRCUIT_BREAKER_RESET_TIME < now - entry.lastFailure →
      op 1 = Except.ok v →
      1 ≤ config.maxAttempts →
      (executeWithRetry config state now op name).fst.success = true ∧
      (executeWithRetry config state now op name).fst.attemptsMade = 1 ∧
      (executeWithRetry config state now op name).snd name = none) := by
  refine ⟨?_, ?_, ?_⟩
  · intro state now name entry op hstate hcount htime
    have hopen : (isCircuitBreakerOpen state now name).fst = true := by
      unfold isCircuitBreakerOpen
      rw [hstate]
      simp only
      rw [if_neg (by omega)]
      simp [hcount]
    unfold executeWithRetry
    simp only [hopen, if_true]
    exact ⟨trivial, trivial⟩
  · intro state now name name2 entry op2 v hstate hcount hstate2 hop hmax
    have hclosed : isCircuitBreakerOpen state now name2 = (false, state) := by
      unfold isCircuitBreakerOpen
      rw [hstate2]
    unfold executeWithRetry
    rw [hclosed]
    simp only [Bool.false_eq_true, if_false]
    rw [runAttempts_ok_first config op2 config.maxAttempts v hop hmax]
    exact ⟨rfl, rfl⟩
  · intro state now name entry op v hstate htime hop hmax
    have hclosed : isCircuitBreakerOpen state now name =
        (false, resetCircuitBreaker state name) := by
      unfold isCircuitBreakerOpen
      rw [hstate]
      simp only
      rw [if_pos (by omega)]
    unfold executeWithRetry
    rw [hclosed]
    simp only [Bool.false_eq_true, if_false]
    rw [runAttempts_ok_first config op config.maxAttempts v hop hmax]
    refine ⟨rfl, rfl, ?_⟩
    unfold resetCircuitBreaker
    simp

/-- Witness for C6 with the default configuration and an always-failing
operation: 3 attempts, last error returned, backoff sleeps 1000ms and
2000ms. -/
theorem retry_exhaustion_witness :
    (executeWithRetry DEFAULT_RETRY_CONFIG emptyBreakerState 0 failOp
        "L2_LATEST_SUPPLY").fst.success = false ∧
    (executeWithRetry DEFAULT_RETRY_CONFIG emptyBreakerState 0 failOp
        "L2_LATEST_SUPPLY").fst.attemptsMade = 3 ∧
    (executeWithRetry DEFAULT_RETRY_CONFIG emptyBreakerState 0 failOp
        "L2_LATEST_SUPPLY").fst.error = some "network error" ∧
    (executeWithRetry DEFAULT_RETRY_CONFIG emptyBreakerState 0 failOp
        "L2_LATEST_SUPPLY").fst.delays.length = 2 ∧
    (executeWithRetry DEFAULT_RETRY_CONFIG emptyBreakerState 0 failOp
        "L2_LATEST_SUPPLY").fst.delays.getD 0 0 = 1000 ∧
    (executeWithRetry DEFAULT_RETRY_CONFIG emptyBreakerState 0 failOp
        "L2_LATEST_SUPPLY").fst.delays.getD 1 0 = 2000 := by
  have h := retry_exhaustion Nat DEFAULT_RETRY_CONFIG emptyBreakerState 0 failOp
    "L2_LATEST_SUPPLY" rfl (by decide) (fun k _ _ => ⟨"network error", rfl⟩)
  refine ⟨h.1, ?_, h.2.2.1 "network error" rfl, ?_, ?_, ?_⟩
  · rw [h.2.1]
    decide
  · rw [h.2.2.2.1]
    decide
  · have h4 := h.2.2.2.2 0 (by decide)
    rw [h4]
    decide
  · have h5 := h.2.2.2.2 1 (by decide)
    rw [h5]
    decide

/-- Witness for C5: a tripped breaker for L1 blocks that name with zero
attempts, leaves a different name unaffected, and resets once the
cool-down has elapsed. -/
theorem circuit_breaker_behavior_witness :
    ((executeWithRetry DEFAULT_RETRY_CONFIG trippedState 2000 failOp
        "L1_LATEST_GLOBAL_STATE").fst.success = false ∧
      (executeWithRetry DEFAULT_RETRY_CONFIG trippedState 2000 failOp
        "L1_LATEST_GLOBAL_STATE").fst.attemptsMade = 0) ∧
    ((executeWithRetry DEFAULT_RETRY_CONFIG trippedState 2000 okOp
        "L2_LATEST_SUPPLY").fst.success = true ∧
      (executeWithRetry DEFAULT_RETRY_CONFIG trippedState 2000 okOp
        "L2_LATEST_SUPPLY").fst.attemptsMade = 1) ∧
    ((executeWithRetry DEFAULT_RETRY_CONFIG trippedState 400000 okOp
        "L1_LATEST_GLOBAL_STATE").fst.success = true ∧
      (executeWithRetry DEFAULT_RETRY_CONFIG trippedState 400000 okOp
        "L1_LATEST_GLOBAL_STATE").fst.attemptsMade = 1 ∧
      (executeWithRetry DEFAULT_RETRY_CONFIG trippedState 400000 okOp
        "L1_LATEST_GLOBAL_STATE").snd "L1_LATEST_GLOBAL_STATE" = none) := by
  have h := circuit_breaker_behavior Nat DEFAULT_RETRY_CONFIG
  refine ⟨?_, ?_, ?_⟩
  · exact h.1 trippedState 2000 "L1_LATEST_GLOBAL_STATE"
      { count := 5, lastFailure := 1000 } failOp (by decide) (by decide) (by decide)
  · exact h.2.1 trippedState 2000 "L1_LATEST_GLOBAL_STATE" "L2_LATEST_SUPPLY"
      { count := 5, lastFailure := 1000 } okOp 42 (by decide) (by decide) (by decide)
      rfl (by decide)
  · exact h.2.2 trippedState 400000 "L1_LATEST_GLOBAL_STATE"
      { count := 5, lastFailure := 1000 } okOp 42 (by decide) (by decide) rfl (by decide)
